/-
Verification of the IFC → CityGML conversion and round-trip parity
validation pipeline (scripts/bim/automation/ifc_to_citygml.py and
scripts/bim/automation/validate_roundtrip.py).

The two scripts are embedded shallowly:

* An opened IFC model (what `ifcopenshell.open` returns) is the structure
  `IFCModel`: a list of `IfcBuilding` entities and a list of storeys that
  are not aggregated under any building.  `by_type "IfcBuildingStorey"`
  returns all storeys of the file, aggregated or not, so the embedding
  keeps both.
* The produced CityGML document is `CityModelDoc`: the list of Building
  elements in document order.  Each `BuildingElem` carries its gml:id,
  its gml:name children in document order (the building name first, then
  one `Storey::` marker per storey), and its genericAttribute children as
  (name, value) pairs in document order.  The root's boundedBy/Null
  placeholder carries no gml:name and no genericAttribute, so it is
  irrelevant to every count the validator takes and is not modelled.
* Python's `x or y` on an optional string (falsy when None or "") is
  `pyOrOpt` / `pyOrStr`.
* Storey elevations are modelled as integers: no claim compares their
  numeric value, they are only carried through `str(...)` into an
  attribute value.
* Mutable converter / validator instance state (`self.buildings_processed`,
  `self.errors`, `self.warnings`) is passed explicitly as `ConvState` /
  `ValState`; both `process_ifc_file` and `validate_parity` reset it on
  entry exactly as the source does.
-/
import Mathlib

namespace BimPipeline

/-- Python `s or d` for a string `s`: `d` when `s` is empty (falsy). -/
def pyOrStr (s d : String) : String :=
  if s = "" then d else s

/-- Python `x or d` for an optional string `x`: `d` when `x` is `None`
or the empty string. -/
def pyOrOpt (x : Option String) (d : String) : String :=
  pyOrStr (x.getD "") d

/-- An `IfcBuildingStorey` entity as the scripts read it. -/
structure IfcStorey where
  name : Option String
  entityId : Nat
  elevation : Int
  globalId : String
  description : Option String
  deriving Repr, DecidableEq

/-- An `IfcBuilding` entity as the scripts read it.  `storeys` is the
list of `IfcBuildingStorey` entities reachable from the building through
an `IfcRelAggregates` inverse relationship, in traversal order. -/
structure IfcBuilding where
  name : Option String
  description : Option String
  globalId : Option String
  objectType : Option String
  entityId : Nat
  storeys : List IfcStorey
  deriving Repr, DecidableEq

/-- An opened IFC file.  `by_type "IfcBuilding"` returns `buildings`;
`by_type "IfcBuildingStorey"` returns every storey of the file, so
storeys that no building aggregates are kept in `looseStoreys`. -/
structure IFCModel where
  buildings : List IfcBuilding
  looseStoreys : List IfcStorey
  deriving Repr, DecidableEq

/-- All `IfcBuildingStorey` entities of the file, as
`ifc_model.by_type("IfcBuildingStorey")` returns them. -/
def IFCModel.allStoreys (m : IFCModel) : List IfcStorey :=
  m.buildings.flatMap (fun b => b.storeys) ++ m.looseStoreys

/-- The storeys aggregated under some building of the file. -/
def IFCModel.aggregatedStoreys (m : IFCModel) : List IfcStorey :=
  m.buildings.flatMap (fun b => b.storeys)

/-- A CityGML Building element: gml:id attribute, gml:name children in
document order and genericAttribute children as (name, value) pairs in
document order. -/
structure BuildingElem where
  gmlId : String
  names : List String
  attrs : List (String × String)
  deriving Repr, DecidableEq

/-- The produced CityGML document: its Building elements in document
order (each wrapped in a cityObjectMember under the CityModel root). -/
structure CityModelDoc where
  buildings : List BuildingElem
  deriving Repr, DecidableEq

/-- `ConversionResult` dataclass. -/
structure ConversionResult where
  success : Bool
  buildings_processed : Nat
  errors : List String
  warnings : List String
  deriving Repr, DecidableEq

/-- Mutable state of an `IFCToCityGMLConverter` instance. -/
structure ConvState where
  buildings_processed : Nat
  errors : List String
  warnings : List String
  deriving Repr, DecidableEq

/-- Converter state as `__init__` leaves it. -/
def ConvState.init : ConvState := ⟨0, [], []⟩

/-- The dictionary built for one storey by `extract_building_storeys`. -/
structure StoreyInfo where
  name : String
  elevation : Int
  globalId : String
  description : String
  deriving Repr, DecidableEq

/-- `IFCToCityGMLConverter.extract_building_storeys`: walk the
building's `IfcRelAggregates` inverse relationships and collect every
related `IfcBuildingStorey` as a dictionary.  The `ifc_model` argument
is only used for the inverse-relationship query, which the embedding
stores on the building itself. -/
def extract_building_storeys (b : IfcBuilding) : List StoreyInfo :=
  b.storeys.map fun s =>
    { name := pyOrOpt s.name ("Storey_" ++ toString s.entityId)
      elevation := s.elevation
      globalId := s.globalId
      description := pyOrOpt s.description "" }

/-- `IFCToCityGMLConverter.add_building`: append a cityObjectMember
wrapping a Building element with the given gml:id, holding one gml:name
child with the building name. -/
def add_building (name gml_id : String) : BuildingElem :=
  { gmlId := gml_id, names := [name], attrs := [] }

/-- `IFCToCityGMLConverter.add_storey_information`: for each storey add
a `Storey::`-prefixed gml:name child and a `storey_elevation`
genericAttribute to the building element. -/
def add_storey_information (be : BuildingElem) (storeys : List StoreyInfo) :
    BuildingElem :=
  storeys.foldl
    (fun e s =>
      { e with
          names := e.names ++ ["Storey::" ++ s.name]
          attrs := e.attrs ++ [("storey_elevation", toString s.elevation)] })
    be

/-- The basic property dictionary `extract_building_properties` builds
before its classification lookup, keys in insertion order; a key is only
inserted when the attribute is present and truthy. -/
def basicProperties (b : IfcBuilding) : List (String × String) :=
  (match b.name with
    | some v => if v = "" then [] else [("name", v)]
    | none => []) ++
  (match b.description with
    | some v => if v = "" then [] else [("description", v)]
    | none => []) ++
  (match b.globalId with
    | some v => if v = "" then [] else [("global_id", v)]
    | none => []) ++
  (match b.objectType with
    | some v => if v = "" then [] else [("object_type", v)]
    | none => [])

/-- Python `str(NameError(...))` for the unbound name `ifc_model`. -/
def nameErrorMsg : String := "name \x27ifc_model\x27 is not defined"

/-- `IFCToCityGMLConverter.extract_building_properties`: builds the
basic property dictionary, then executes
`classifications = ifc_model.get_inverse(building)`.  The name
`ifc_model` is unbound in this method (the method has no such parameter
and no such global exists), so the call raises `NameError` before the
dictionary is returned — for every building. -/
def extract_building_properties (b : IfcBuilding) :
    Except String (List (String × String)) :=
  let _properties := basicProperties b
  Except.error nameErrorMsg

/-- `IFCToCityGMLConverter.add_building_properties`: every property
except `name` becomes a genericAttribute on the building element. -/
def add_building_properties (be : BuildingElem)
    (properties : List (String × String)) : BuildingElem :=
  properties.foldl
    (fun e kv =>
      if kv.1 ≠ "name" then { e with attrs := e.attrs ++ [kv] } else e)
    be

/-- The building name the converter resolves for the building at index
`idx`: `(building.Name or f"Building_{idx}") or f"Building_{idx}"`. -/
def converterBuildingName (idx : Nat) (b : IfcBuilding) : String :=
  pyOrStr (pyOrOpt b.name ("Building_" ++ toString idx))
    ("Building_" ++ toString idx)

/-- Body of the per-building `try` block of `process_ifc_file`: the
Building element is appended to the tree (already holding the building
name), storey information is added in place, then
`extract_building_properties` raises and the `except` clause records an
index-tagged error; had it returned, the properties would have been
added and `buildings_processed` incremented.  Returns the element as it
ends up in the written tree, and the recorded error if any. -/
def processBuilding (idx : Nat) (b : IfcBuilding) :
    BuildingElem × Option String :=
  let building_name := converterBuildingName idx b
  let building_id := "b-" ++ toString idx
  let elem := add_building building_name building_id
  let storeys := extract_building_storeys b
  let elem := if storeys.isEmpty then elem else add_storey_information elem storeys
  match extract_building_properties b with
  | Except.ok props => (add_building_properties elem props, none)
  | Except.error e =>
      (elem, some ("Error processing building " ++ toString idx ++ ": " ++ e))

/-- The `for idx, building in enumerate(buildings)` loop of
`process_ifc_file`, started at index `idx`: returns the Building
elements appended to the tree, the errors recorded in order, and the
number of buildings processed without error. -/
def convLoop (idx : Nat) : List IfcBuilding → List BuildingElem × List String × Nat
  | [] => ([], [], 0)
  | b :: rest =>
      let pb := processBuilding idx b
      let r := convLoop (idx + 1) rest
      match pb.2 with
      | some e => (pb.1 :: r.1, e :: r.2.1, r.2.2)
      | none => (pb.1 :: r.1, r.2.1, r.2.2 + 1)

/-- The warnings `process_ifc_file` records before the building loop:
when the file has no `IfcBuilding` entity, a no-building warning, plus a
storey-count warning when the fallback `by_type("IfcBuildingStorey")`
query finds storeys. -/
def preWarnings (m : IFCModel) : List String :=
  if m.buildings.isEmpty then
    "No IfcBuilding entities found in IFC file" ::
      (if m.allStoreys.isEmpty then []
       else ["Found " ++ toString m.allStoreys.length ++
             " building storeys without building entity"])
  else []

/-- `IFCToCityGMLConverter.process_ifc_file` on an IFC file that opens
successfully: resets the instance state, builds the CityModel tree,
writes it, and returns the result built from the accumulated state.
Returns (state as left behind, written document, result). -/
def process_ifc_file (_st : ConvState) (m : IFCModel) :
    ConvState × CityModelDoc × ConversionResult :=
  let warnings := preWarnings m
  let r := convLoop 0 m.buildings
  (⟨r.2.2, r.2.1, warnings⟩,
   { buildings := r.1 },
   { success := r.2.1.isEmpty
     buildings_processed := r.2.2
     errors := r.2.1
     warnings := warnings })

/-- The document `process_ifc_file` writes for `m`. -/
def convertedDoc (m : IFCModel) : CityModelDoc :=
  (process_ifc_file ConvState.init m).2.1

/-- The `ConversionResult` `process_ifc_file` returns for `m`. -/
def convertFile (m : IFCModel) : ConversionResult :=
  (process_ifc_file ConvState.init m).2.2

/-- The conversion orchestrator's per-file loop in `main`: thread the
single converter instance through the files, collecting each file's
`ConversionResult`. -/
def processAll (st : ConvState) : List IFCModel → ConvState × List ConversionResult
  | [] => (st, [])
  | m :: rest =>
      let r := process_ifc_file st m
      let rs := processAll r.1 rest
      (rs.1, r.2.2 :: rs.2)

/-- `main` of ifc_to_citygml.py, on its branching that decides the exit
code.  `argc` is `len(sys.argv)`; usage errors exit 2; a missing input
directory, or no `*.ifc` file in it, exit 1; otherwise every file is
processed and the run exits 0 exactly when the number of successful
conversions equals the number of files, else 1. -/
def ifcMain (argc : Nat) (inputDirExists : Bool) (files : List IFCModel) : Nat :=
  if argc < 3 then 2
  else if inputDirExists = false then 1
  else if files.isEmpty then 1
  else
    let results := (processAll ConvState.init files).2
    let successful_conversions := results.countP (fun r => r.success)
    if successful_conversions = files.length then 0 else 1

/-! ## Round-trip validator (validate_roundtrip.py) -/

/-- `ParityResult` dataclass (file-path fields omitted). -/
structure ParityResult where
  buildings_parity : Bool
  storeys_parity : Bool
  properties_parity : Bool
  ifc_buildings : Nat
  citygml_buildings : Nat
  ifc_storeys : Nat
  citygml_storeys : Nat
  errors : List String
  warnings : List String
  deriving Repr, DecidableEq

/-- Mutable state of a `RoundTripValidator` instance. -/
structure ValState where
  errors : List String
  warnings : List String
  deriving Repr, DecidableEq

/-- Validator state as `__init__` leaves it. -/
def ValState.init : ValState := ⟨[], []⟩

/-- The metadata `count_ifc_buildings` extracts for one building; its
name default uses the entity's internal id
(`building.Name or f"Building_{building.id()}"`). -/
structure IfcBuildingMeta where
  name : String
  global_id : Option String
  description : String
  object_type : String
  deriving Repr, DecidableEq

/-- `RoundTripValidator.count_ifc_buildings` on a file that opens
successfully: the count of `IfcBuilding` entities and their metadata. -/
def count_ifc_buildings (m : IFCModel) : Nat × List IfcBuildingMeta :=
  (m.buildings.length,
   m.buildings.map fun b =>
     { name := pyOrOpt b.name ("Building_" ++ toString b.entityId)
       global_id := b.globalId
       description := pyOrOpt b.description ""
       object_type := pyOrOpt b.objectType "" })

/-- `RoundTripValidator.count_ifc_storeys` on a file that opens
successfully: the count of all `IfcBuildingStorey` entities of the file
(`ifc_model.by_type("IfcBuildingStorey")`), aggregated under a building
or not. -/
def count_ifc_storeys (m : IFCModel) : Nat :=
  m.allStoreys.length

/-- The name `count_citygml_buildings` extracts for a Building element:
the text of its first descendant gml:name, `"Unknown"` if it has none. -/
def citygmlBuildingName (be : BuildingElem) : String :=
  (be.names.head?).getD "Unknown"

/-- `RoundTripValidator.count_citygml_buildings` on a document that
parses: the count of Building elements (`//c:Building`) and the name
each one carries. -/
def count_citygml_buildings (doc : CityModelDoc) : Nat × List String :=
  (doc.buildings.length, doc.buildings.map citygmlBuildingName)

/-- `RoundTripValidator.count_citygml_storeys` on a document that
parses: the count of gml:name elements anywhere in the document whose
text starts with `"Storey::"`. -/
def count_citygml_storeys (doc : CityModelDoc) : Nat :=
  ((doc.buildings.flatMap fun be => be.names).countP
    fun n => n.startsWith "Storey::")

/-- Python `set(xs) == set(ys)` on lists of strings. -/
def sameNameSet (xs ys : List String) : Bool :=
  xs.all (fun x => ys.contains x) && ys.all (fun y => xs.contains y)

/-- `RoundTripValidator.validate_parity` on a source file and target
document that both open/parse: resets the instance state, recomputes
both sides' counts, and compares.  Returns (state as left behind,
result). -/
def validate_parity (_st : ValState) (m : IFCModel) (doc : CityModelDoc) :
    ValState × ParityResult :=
  let (ifc_buildings, ifc_building_metadata) := count_ifc_buildings m
  let ifc_storeys := count_ifc_storeys m
  let (citygml_buildings, citygml_names) := count_citygml_buildings doc
  let citygml_storeys := count_citygml_storeys doc
  let buildings_parity := ifc_buildings = citygml_buildings
  let errors₁ : List String :=
    if buildings_parity then []
    else ["Building count mismatch: IFC=" ++ toString ifc_buildings ++
          ", CityGML=" ++ toString citygml_buildings]
  let storeys_parity := ifc_storeys = citygml_storeys
  let errors₂ : List String :=
    if storeys_parity then []
    else ["Storeys count mismatch: IFC=" ++ toString ifc_storeys ++
          ", CityGML=" ++ toString citygml_storeys]
  let ifc_names := ifc_building_metadata.map fun b => b.name
  let properties_parity :=
    if 0 < ifc_buildings ∧ 0 < citygml_buildings then
      sameNameSet ifc_names citygml_names
    else true
  let errors₃ : List String :=
    if properties_parity then []
    else ["Building names not preserved in CityGML"]
  let warnings :=
    (if ifc_buildings = 0 then ["No buildings found in IFC file"] else []) ++
    (if citygml_buildings = 0 then ["No buildings found in CityGML file"] else [])
  let errors := errors₁ ++ errors₂ ++ errors₃
  (⟨errors, warnings⟩,
   { buildings_parity := buildings_parity
     storeys_parity := storeys_parity
     properties_parity := properties_parity
     ifc_buildings := ifc_buildings
     citygml_buildings := citygml_buildings
     ifc_storeys := ifc_storeys
     citygml_storeys := citygml_storeys
     errors := errors
     warnings := warnings })

/-- The `ParityResult` for source `m` and target `doc`. -/
def parityOf (m : IFCModel) (doc : CityModelDoc) : ParityResult :=
  (validate_parity ValState.init m doc).2

/-! ## Structural lemmas about the converter -/

/-- The error message recorded for the building at index `idx`. -/
def buildingError (idx : Nat) : String :=
  "Error processing building " ++ toString idx ++ ": " ++ nameErrorMsg

theorem add_storey_information_eq (ss : List StoreyInfo) :
    ∀ e : BuildingElem,
      add_storey_information e ss =
        { gmlId := e.gmlId
          names := e.names ++ ss.map (fun s => "Storey::" ++ s.name)
          attrs := e.attrs ++
            ss.map (fun s => ("storey_elevation", toString s.elevation)) } := by
  induction ss with
  | nil => intro e; simp [add_storey_information]
  | cons s rest ih =>
      intro e
      show add_storey_information _ rest = _
      rw [ih]
      simp

/-- The element the per-building step leaves in the tree: the building
name, one `Storey::` marker per storey, one `storey_elevation` attribute
per storey, and (the properties extraction having raised) no property
attribute. -/
theorem processBuilding_fst (idx : Nat) (b : IfcBuilding) :
    (processBuilding idx b).1 =
      { gmlId := "b-" ++ toString idx
        names := converterBuildingName idx b ::
          (extract_building_storeys b).map (fun s => "Storey::" ++ s.name)
        attrs := (extract_building_storeys b).map
          (fun s => ("storey_elevation", toString s.elevation)) } := by
  cases hstor : extract_building_storeys b with
  | nil => simp [processBuilding, extract_building_properties, add_building, hstor]
  | cons s rest =>
      simp [processBuilding, extract_building_properties, add_building, hstor,
        add_storey_information_eq]

/-- Every per-building step records the index-tagged NameError. -/
theorem processBuilding_snd (idx : Nat) (b : IfcBuilding) :
    (processBuilding idx b).2 = some (buildingError idx) := rfl

/-- Closed form of the building loop: one element and one index-tagged
error per building, zero buildings processed without error. -/
theorem convLoop_eq (bs : List IfcBuilding) :
    ∀ idx : Nat,
      convLoop idx bs =
        ((List.enumFrom idx bs).map (fun p => (processBuilding p.1 p.2).1),
         (List.enumFrom idx bs).map (fun p => buildingError p.1),
         0) := by
  induction bs with
  | nil => intro idx; rfl
  | cons b rest ih =>
      intro idx
      simp [convLoop, processBuilding_snd, ih, List.enumFrom]

theorem process_ifc_file_doc (st : ConvState) (m : IFCModel) :
    (process_ifc_file st m).2.1.buildings
      = m.buildings.enum.map (fun p => (processBuilding p.1 p.2).1) := by
  show (convLoop 0 m.buildings).1 = _
  rw [convLoop_eq]
  rfl

theorem process_ifc_file_errors (st : ConvState) (m : IFCModel) :
    (process_ifc_file st m).2.2.errors
      = m.buildings.enum.map (fun p => buildingError p.1) := by
  show (convLoop 0 m.buildings).2.1 = _
  rw [convLoop_eq]
  rfl

theorem process_ifc_file_processed (st : ConvState) (m : IFCModel) :
    (process_ifc_file st m).2.2.buildings_processed = 0 := by
  show (convLoop 0 m.buildings).2.2 = 0
  rw [convLoop_eq]

theorem process_ifc_file_success (st : ConvState) (m : IFCModel) :
    (process_ifc_file st m).2.2.success
      = (process_ifc_file st m).2.2.errors.isEmpty := rfl

theorem process_ifc_file_warnings (st : ConvState) (m : IFCModel) :
    (process_ifc_file st m).2.2.warnings = preWarnings m := rfl

/-- The result for each file of a batch is the pure per-file result:
the converter state threaded through the batch is irrelevant, because
`process_ifc_file` resets it on entry. -/
theorem processAll_results (fs : List IFCModel) :
    ∀ st : ConvState, (processAll st fs).2 = fs.map convertFile := by
  induction fs with
  | nil => intro st; rfl
  | cons f rest ih =>
      intro st
      show ((processAll (process_ifc_file st f).1 rest).1,
        (process_ifc_file st f).2.2 ::
          (processAll (process_ifc_file st f).1 rest).2).2 = _
      rw [List.map_cons]
      show (process_ifc_file st f).2.2 :: (processAll _ rest).2 = _
      rw [ih]
      rfl

/-- The building-parity field is the comparison of the two building
counts. -/
theorem validate_parity_buildings_parity (vst : ValState) (m : IFCModel)
    (doc : CityModelDoc) :
    ((validate_parity vst m doc).2).buildings_parity
      = decide (m.buildings.length = doc.buildings.length) := rfl

/-- The properties-parity field compares the name sets when both sides
have a building. -/
theorem validate_parity_properties_parity (vst : ValState) (m : IFCModel)
    (doc : CityModelDoc) :
    ((validate_parity vst m doc).2).properties_parity
      = (if 0 < m.buildings.length ∧ 0 < doc.buildings.length then
          sameNameSet ((count_ifc_buildings m).2.map fun bm => bm.name)
            (count_citygml_buildings doc).2
         else true) := rfl

/-! ## Concrete inputs used to instantiate the theorems -/

/-- A storey named L1 with entity id 3. -/
def stoL1 : IfcStorey := ⟨some "L1", 3, 35, "SG", none⟩

/-- A building with one aggregated storey. -/
def bWithStorey : IfcBuilding := ⟨some "B", none, none, none, 1, [stoL1]⟩

/-- A building named Tower A. -/
def bTower : IfcBuilding := ⟨some "Tower A", none, some "GID1", none, 7, []⟩

/-- A building with the empty name and entity id 1. -/
def bEmptyName : IfcBuilding := ⟨some "", none, some "GID2", none, 1, []⟩

/-- A file with no building and one storey aggregated under none. -/
def mLooseStorey : IFCModel := ⟨[], [stoL1]⟩

/-- A file with one building carrying one storey. -/
def mOneBuilding : IFCModel := ⟨[bWithStorey], []⟩

/-! ## The claims -/

/-- C1: Round-trip law — for every input file whose conversion returns a
ConversionResult with success = true and an empty error list, parity
validation of the source file against the produced target document
returns a ParityResult with buildings_parity = true. -/
theorem C1_roundtrip_buildings_parity (cst : ConvState) (vst : ValState)
    (m : IFCModel)
    (hs : ((process_ifc_file cst m).2.2).success = true)
    (he : ((process_ifc_file cst m).2.2).errors = []) :
    ((validate_parity vst m (process_ifc_file cst m).2.1).2).buildings_parity
      = true := by
  obtain ⟨bs, ls⟩ := m
  cases bs with
  | nil => rfl
  | cons b rest =>
      rw [process_ifc_file_errors] at he
      simp [List.enum, List.enumFrom] at he

/-- C1 witness: a file with no building converts with success = true and
no error, and the produced document passes building parity. -/
theorem C1_roundtrip_buildings_parity_witness :
    ((validate_parity ValState.init ⟨[], []⟩
        (process_ifc_file ConvState.init ⟨[], []⟩).2.1).2).buildings_parity
      = true :=
  C1_roundtrip_buildings_parity ConvState.init ValState.init ⟨[], []⟩ rfl rfl

/-- C2: the classification lookup of extract_building_properties reads
the unbound name ifc_model, so the extraction raises NameError for every
building; hence a file with at least one Building entity gets one
per-building error per building, success = false and
buildings_processed = 0. -/
theorem C2_unbound_ifc_model (cst : ConvState) (m : IFCModel)
    (b : IfcBuilding) (hb : m.buildings ≠ []) :
    extract_building_properties b = Except.error nameErrorMsg ∧
    ((process_ifc_file cst m).2.2).errors.length = m.buildings.length ∧
    ((process_ifc_file cst m).2.2).success = false ∧
    ((process_ifc_file cst m).2.2).buildings_processed = 0 := by
  refine ⟨rfl, ?_, ?_, process_ifc_file_processed cst m⟩
  · rw [process_ifc_file_errors]
    simp
  · rw [process_ifc_file_success, process_ifc_file_errors]
    cases hbs : m.buildings with
    | nil => exact absurd hbs hb
    | cons x xs => simp [List.enum, List.enumFrom]

/-- C2 witness: a file with one building yields one error,
success = false and zero buildings processed. -/
theorem C2_unbound_ifc_model_witness :
    extract_building_properties ⟨some "B", none, none, none, 1, []⟩
        = Except.error nameErrorMsg ∧
    ((process_ifc_file ConvState.init
        ⟨[⟨some "B", none, none, none, 1, []⟩], []⟩).2.2).errors.length
      = (⟨[⟨some "B", none, none, none, 1, []⟩], []⟩ : IFCModel).buildings.length ∧
    ((process_ifc_file ConvState.init
        ⟨[⟨some "B", none, none, none, 1, []⟩], []⟩).2.2).success = false ∧
    ((process_ifc_file ConvState.init
        ⟨[⟨some "B", none, none, none, 1, []⟩], []⟩).2.2).buildings_processed
      = 0 :=
  C2_unbound_ifc_model ConvState.init ⟨[⟨some "B", none, none, none, 1, []⟩], []⟩
    ⟨some "B", none, none, none, 1, []⟩ (by simp)

/-- C3: a source file with zero Building entities produces a target
document with zero Building elements, buildings_processed = 0,
success = true and at least one warning: the no-building warning, plus a
storey-count warning when storey entities exist, and no building is
synthesized for them. -/
theorem C3_zero_buildings (cst : ConvState) (m : IFCModel)
    (hb : m.buildings = []) :
    ((process_ifc_file cst m).2.1).buildings = [] ∧
    ((process_ifc_file cst m).2.2).buildings_processed = 0 ∧
    ((process_ifc_file cst m).2.2).success = true ∧
    1 ≤ ((process_ifc_file cst m).2.2).warnings.length ∧
    ((process_ifc_file cst m).2.2).warnings
      = "No IfcBuilding entities found in IFC file" ::
          (if m.allStoreys.isEmpty then []
           else ["Found " ++ toString m.allStoreys.length ++
                 " building storeys without building entity"]) := by
  obtain ⟨bs, ls⟩ := m
  simp only [IFCModel.buildings] at hb
  subst hb
  refine ⟨rfl, rfl, rfl, ?_, ?_⟩
  · rw [process_ifc_file_warnings]
    simp [preWarnings]
  · rw [process_ifc_file_warnings]
    rfl

/-- C3 witness: a file with no building but one loose storey gets both
warnings, an empty document, success = true. -/
theorem C3_zero_buildings_witness :
    ((process_ifc_file ConvState.init
        ⟨[], [⟨some "L1", 3, 35, "SG", none⟩]⟩).2.1).buildings = [] ∧
    ((process_ifc_file ConvState.init
        ⟨[], [⟨some "L1", 3, 35, "SG", none⟩]⟩).2.2).buildings_processed = 0 ∧
    ((process_ifc_file ConvState.init
        ⟨[], [⟨some "L1", 3, 35, "SG", none⟩]⟩).2.2).success = true ∧
    1 ≤ ((process_ifc_file ConvState.init
        ⟨[], [⟨some "L1", 3, 35, "SG", none⟩]⟩).2.2).warnings.length ∧
    ((process_ifc_file ConvState.init
        ⟨[], [⟨some "L1", 3, 35, "SG", none⟩]⟩).2.2).warnings
      = "No IfcBuilding entities found in IFC file" ::
          (if (⟨[], [⟨some "L1", 3, 35, "SG", none⟩]⟩ : IFCModel).allStoreys.isEmpty
           then []
           else ["Found " ++
                 toString (⟨[], [⟨some "L1", 3, 35, "SG", none⟩]⟩ : IFCModel).allStoreys.length ++
                 " building storeys without building entity"]) :=
  C3_zero_buildings ConvState.init ⟨[], [⟨some "L1", 3, 35, "SG", none⟩]⟩ rfl

/-- C4: no Building element of any produced document ever carries a
generic attribute named global_id; every generic attribute whose name is
one of the extracted property keys is among description, object_type and
classification; and the building name is carried by the dedicated first
name child. -/
theorem C4_no_global_id_attribute (cst : ConvState) (m : IFCModel)
    (be : BuildingElem)
    (hmem : be ∈ ((process_ifc_file cst m).2.1).buildings) :
    (∀ kv ∈ be.attrs, kv.1 ≠ "global_id") ∧
    (∀ kv ∈ be.attrs,
        kv.1 ∈ ["name", "description", "global_id", "object_type",
                "classification"] →
        kv.1 ∈ (["description", "object_type", "classification"] :
                List String)) ∧
    (∃ p ∈ m.buildings.enum,
        be.names.head? = some (converterBuildingName p.1 p.2)) := by
  rw [process_ifc_file_doc] at hmem
  obtain ⟨p, hp, rfl⟩ := List.mem_map.mp hmem
  have hall : ∀ kv ∈ ((processBuilding p.1 p.2).1).attrs,
      kv.1 = "storey_elevation" := by
    rw [processBuilding_fst]
    intro kv hkv
    simp only [List.mem_map] at hkv
    obtain ⟨s, _, h⟩ := hkv
    rw [← h]
  refine ⟨?_, ?_, ⟨p, hp, ?_⟩⟩
  · intro kv hkv
    rw [hall kv hkv]
    decide
  · intro kv hkv hin
    rw [hall kv hkv] at hin
    simp at hin
  · rw [processBuilding_fst]
    rfl

/-- C4 witness: a one-building file whose building element does carry a
generic attribute (a storey elevation), so the conclusions are not
vacuous. -/
theorem C4_no_global_id_attribute_witness :
    (∀ kv ∈ (⟨"b-0", ["B", "Storey::L1"],
        [("storey_elevation", "35")]⟩ : BuildingElem).attrs,
      kv.1 ≠ "global_id") ∧
    (∀ kv ∈ (⟨"b-0", ["B", "Storey::L1"],
        [("storey_elevation", "35")]⟩ : BuildingElem).attrs,
        kv.1 ∈ ["name", "description", "global_id", "object_type",
                "classification"] →
        kv.1 ∈ (["description", "object_type", "classification"] :
                List String)) ∧
    (∃ p ∈ mOneBuilding.buildings.enum,
        (⟨"b-0", ["B", "Storey::L1"],
          [("storey_elevation", "35")]⟩ : BuildingElem).names.head?
          = some (converterBuildingName p.1 p.2)) :=
  C4_no_global_id_attribute ConvState.init mOneBuilding
    ⟨"b-0", ["B", "Storey::L1"], [("storey_elevation", "35")]⟩ (by decide)

/-- C5 counterexample: a file with no building and one storey that no
building aggregates; the validator's source-side storey count is 1 while
the number of storeys aggregated under a building is 0, so the two are
not equal as the claim states. -/
theorem C5_storey_count_counterexample :
    (parityOf mLooseStorey (convertedDoc mLooseStorey)).ifc_storeys
      ≠ mLooseStorey.aggregatedStoreys.length := by decide

/-- C5 (amended): the validator's source-side count equals the number of
all Storey entities of the source file, aggregated under a building or
not; its target-side count equals the number of name elements anywhere
in the target document whose text begins with Storey::, and
storeys_parity is true exactly when the two counts are equal. -/
theorem C5_storey_count_amended (vst : ValState) (m : IFCModel)
    (doc : CityModelDoc) :
    ((validate_parity vst m doc).2).ifc_storeys = m.allStoreys.length ∧
    ((validate_parity vst m doc).2).citygml_storeys
      = (doc.buildings.flatMap (fun be => be.names)).countP
          (fun n => n.startsWith "Storey::") ∧
    (((validate_parity vst m doc).2).storeys_parity = true ↔
      ((validate_parity vst m doc).2).ifc_storeys
        = ((validate_parity vst m doc).2).citygml_storeys) := by
  refine ⟨rfl, rfl, ?_⟩
  exact decide_eq_true_iff

/-- C6: the per-building exception is caught and recorded as an error
string tagged with the building index, processing continues with the
next building (the written document keeps one Building element per
source building), the result has success = false whenever any error
occurred, and success is exactly emptiness of the error list. -/
theorem C6_per_building_error_tolerance (cst : ConvState) (m : IFCModel) :
    ((process_ifc_file cst m).2.2).errors
      = m.buildings.enum.map
          (fun p => "Error processing building " ++ toString p.1 ++ ": " ++
            nameErrorMsg) ∧
    ((process_ifc_file cst m).2.1).buildings.length = m.buildings.length ∧
    (((process_ifc_file cst m).2.2).errors ≠ [] →
      ((process_ifc_file cst m).2.2).success = false) ∧
    ((process_ifc_file cst m).2.2).success
      = ((process_ifc_file cst m).2.2).errors.isEmpty := by
  refine ⟨?_, ?_, ?_, rfl⟩
  · rw [process_ifc_file_errors]
    rfl
  · rw [process_ifc_file_doc]
    simp
  · intro hne
    cases herr : ((process_ifc_file cst m).2.2).errors with
    | nil => exact absurd herr hne
    | cons e es =>
        rw [process_ifc_file_success, herr]
        rfl

/-- C6 witness: a two-building file records the two index-tagged errors,
keeps both Building elements, and has success = false. -/
theorem C6_per_building_error_tolerance_witness :
    ((process_ifc_file ConvState.init ⟨[bTower, bWithStorey], []⟩).2.2).errors
      = (⟨[bTower, bWithStorey], []⟩ : IFCModel).buildings.enum.map
          (fun p => "Error processing building " ++ toString p.1 ++ ": " ++
            nameErrorMsg) ∧
    ((process_ifc_file ConvState.init
        ⟨[bTower, bWithStorey], []⟩).2.1).buildings.length
      = (⟨[bTower, bWithStorey], []⟩ : IFCModel).buildings.length ∧
    (((process_ifc_file ConvState.init
        ⟨[bTower, bWithStorey], []⟩).2.2).errors ≠ [] →
      ((process_ifc_file ConvState.init
        ⟨[bTower, bWithStorey], []⟩).2.2).success = false) ∧
    ((process_ifc_file ConvState.init ⟨[bTower, bWithStorey], []⟩).2.2).success
      = ((process_ifc_file ConvState.init
          ⟨[bTower, bWithStorey], []⟩).2.2).errors.isEmpty :=
  C6_per_building_error_tolerance ConvState.init ⟨[bTower, bWithStorey], []⟩

/-- C7: scenario — a source file with exactly two buildings named
Tower A and the empty string produces Building elements named Tower A
and Building_1; the parity validator reports buildings_parity = true,
and properties_parity is true exactly when the two name sets agree (the
validator names the empty-named source building after its entity id, so
the sets agree exactly when that default coincides with Building_1). -/
theorem C7_two_building_scenario (cst : ConvState) (vst : ValState)
    (b₁ b₂ : IfcBuilding) (ls : List IfcStorey)
    (h₁ : b₁.name = some "Tower A") (h₂ : b₂.name = some "") :
    ((process_ifc_file cst ⟨[b₁, b₂], ls⟩).2.1).buildings.map citygmlBuildingName
      = ["Tower A", "Building_1"] ∧
    ((validate_parity vst ⟨[b₁, b₂], ls⟩
        (process_ifc_file cst ⟨[b₁, b₂], ls⟩).2.1).2).buildings_parity = true ∧
    ((validate_parity vst ⟨[b₁, b₂], ls⟩
        (process_ifc_file cst ⟨[b₁, b₂], ls⟩).2.1).2).properties_parity
      = sameNameSet ["Tower A", "Building_" ++ toString b₂.entityId]
          ["Tower A", "Building_1"] := by
  have hdoc : ((process_ifc_file cst ⟨[b₁, b₂], ls⟩).2.1).buildings.map
      citygmlBuildingName = ["Tower A", "Building_1"] := by
    rw [process_ifc_file_doc]
    simp [List.enum, List.enumFrom, processBuilding_fst, citygmlBuildingName,
      converterBuildingName, pyOrOpt, pyOrStr, h₁, h₂]
    rfl
  have hlen : ((process_ifc_file cst ⟨[b₁, b₂], ls⟩).2.1).buildings.length = 2 := by
    rw [process_ifc_file_doc]
    simp [List.enum, List.enumFrom]
  refine ⟨hdoc, ?_, ?_⟩
  · rw [validate_parity_buildings_parity, hlen]
    rfl
  · rw [validate_parity_properties_parity]
    have hcity : (count_citygml_buildings
        (process_ifc_file cst ⟨[b₁, b₂], ls⟩).2.1).2
        = ["Tower A", "Building_1"] := hdoc
    rw [hcity]
    have hpos : 0 < ((process_ifc_file cst ⟨[b₁, b₂], ls⟩).2.1).buildings.length := by
      rw [hlen]; exact Nat.zero_lt_succ 1
    rw [if_pos ⟨Nat.zero_lt_succ 1, hpos⟩]
    simp [count_ifc_buildings, pyOrOpt, pyOrStr, h₁, h₂]

/-- C7 witness: when the empty-named building has entity id 1 the name
sets agree, so properties parity holds as well. -/
theorem C7_two_building_scenario_witness :
    ((process_ifc_file ConvState.init
        ⟨[bTower, bEmptyName], []⟩).2.1).buildings.map citygmlBuildingName
      = ["Tower A", "Building_1"] ∧
    ((validate_parity ValState.init ⟨[bTower, bEmptyName], []⟩
        (process_ifc_file ConvState.init
          ⟨[bTower, bEmptyName], []⟩).2.1).2).buildings_parity = true ∧
    ((validate_parity ValState.init ⟨[bTower, bEmptyName], []⟩
        (process_ifc_file ConvState.init
          ⟨[bTower, bEmptyName], []⟩).2.1).2).properties_parity
      = sameNameSet ["Tower A", "Building_" ++ toString bEmptyName.entityId]
          ["Tower A", "Building_1"] :=
  C7_two_building_scenario ConvState.init ValState.init bTower bEmptyName []
    rfl rfl

/-- C8 counterexample: with well-formed arguments but a missing input
directory the convert CLI exits 1, not 2 as the claim states. -/
theorem C8_exit_code_counterexample :
    ifcMain 3 false [] = 1 ∧ ifcMain 3 false [] ≠ 2 := by decide

/-- C8 (amended): the convert CLI exits 0 when input files exist and
every file converted successfully; 1 when the input directory is
missing, when no input file is found, or when some file failed; and 2
exactly when fewer than two arguments are given. -/
theorem C8_exit_code_amended (argc : Nat) (ex : Bool) (files : List IFCModel) :
    (ifcMain argc ex files = 2 ↔ argc < 3) ∧
    (3 ≤ argc → ex = false → ifcMain argc ex files = 1) ∧
    (3 ≤ argc → ex = true → files = [] → ifcMain argc ex files = 1) ∧
    (3 ≤ argc → ex = true → files ≠ [] →
      (ifcMain argc ex files = 0 ↔
        ∀ f ∈ files, (convertFile f).success = true)) := by
  refine ⟨?_, ?_, ?_, ?_⟩
  · constructor
    · intro h
      by_contra hlt
      simp only [ifcMain, if_neg hlt] at h
      split_ifs at h <;> omega
    · intro hlt
      simp [ifcMain, hlt]
  · intro h3 hex
    simp [ifcMain, Nat.not_lt.mpr h3, hex]
  · intro h3 hex hfe
    simp [ifcMain, Nat.not_lt.mpr h3, hex, hfe]
  · intro h3 hex hne
    subst hex
    have hie : files.isEmpty = false := by
      cases files with
      | nil => exact absurd rfl hne
      | cons f fs => rfl
    simp only [ifcMain, if_neg (Nat.not_lt.mpr h3)]
    rw [if_neg (by simp), if_neg (by simp [hie])]
    rw [processAll_results, List.countP_map]
    constructor
    · intro h0 f hf
      split_ifs at h0 with hc
      exact List.countP_eq_length.mp hc f hf
    · intro hall
      have hcnt : List.countP ((fun r => r.success) ∘ convertFile) files
          = files.length :=
        List.countP_eq_length.mpr (fun a ha => hall a ha)
      rw [if_pos hcnt]

/-- C8 witness for the amended claim: a file with no building converts
successfully, so a run over it alone exits 0. -/
theorem C8_exit_code_amended_witness :
    ifcMain 3 true [mLooseStorey] = 0 :=
  ((C8_exit_code_amended 3 true [mLooseStorey]).2.2.2 (by omega) rfl
      (by simp)).mpr (by decide)

/-- C9: the Building element is appended to the tree before storey and
property extraction and a per-building exception does not remove it: the
written document holds exactly one Building element per source Building
entity, each with a name child; buildings_processed plus the recorded
errors account for every building, so it counts only the error-free ones
and is strictly below the Building-element count whenever any building
errored. -/
theorem C9_element_kept_on_error (cst : ConvState) (m : IFCModel) :
    ((process_ifc_file cst m).2.1).buildings.length = m.buildings.length ∧
    (∀ be ∈ ((process_ifc_file cst m).2.1).buildings, be.names ≠ []) ∧
    ((process_ifc_file cst m).2.2).buildings_processed
        + ((process_ifc_file cst m).2.2).errors.length
      = ((process_ifc_file cst m).2.1).buildings.length ∧
    (((process_ifc_file cst m).2.2).errors ≠ [] →
      ((process_ifc_file cst m).2.2).buildings_processed
        < ((process_ifc_file cst m).2.1).buildings.length) := by
  have hlen : ((process_ifc_file cst m).2.1).buildings.length
      = m.buildings.length := by
    rw [process_ifc_file_doc]
    simp
  have herr : ((process_ifc_file cst m).2.2).errors.length
      = m.buildings.length := by
    rw [process_ifc_file_errors]
    simp
  refine ⟨hlen, ?_, ?_, ?_⟩
  · intro be hbe
    rw [process_ifc_file_doc] at hbe
    obtain ⟨p, hp, rfl⟩ := List.mem_map.mp hbe
    rw [processBuilding_fst]
    simp
  · rw [process_ifc_file_processed, herr, hlen]
    exact Nat.zero_add _
  · intro hne
    rw [process_ifc_file_processed, hlen]
    rw [process_ifc_file_errors] at hne
    cases hbs : m.buildings with
    | nil =>
        rw [hbs] at hne
        exact absurd rfl hne
    | cons x xs => exact Nat.zero_lt_succ xs.length

/-- C9 witness: a one-building file keeps its Building element while
recording the error, so zero processed is strictly below one element. -/
theorem C9_element_kept_on_error_witness :
    ((process_ifc_file ConvState.init mOneBuilding).2.1).buildings.length
      = mOneBuilding.buildings.length ∧
    (∀ be ∈ ((process_ifc_file ConvState.init mOneBuilding).2.1).buildings,
      be.names ≠ []) ∧
    ((process_ifc_file ConvState.init mOneBuilding).2.2).buildings_processed
        + ((process_ifc_file ConvState.init mOneBuilding).2.2).errors.length
      = ((process_ifc_file ConvState.init mOneBuilding).2.1).buildings.length ∧
    (((process_ifc_file ConvState.init mOneBuilding).2.2).errors ≠ [] →
      ((process_ifc_file ConvState.init mOneBuilding).2.2).buildings_processed
        < ((process_ifc_file ConvState.init
            mOneBuilding).2.1).buildings.length) :=
  C9_element_kept_on_error ConvState.init mOneBuilding

/-- C10: order independence — the conversion and parity results for a
fixed file do not depend on the converter or validator state left by any
previously processed files, because each call resets the accumulated
state on entry; over a whole batch the per-file results are the map of a
pure per-file function. -/
theorem C10_order_independence (s₁ s₂ : ConvState) (v₁ v₂ : ValState)
    (m : IFCModel) (doc : CityModelDoc) (fs : List IFCModel) :
    process_ifc_file s₁ m = process_ifc_file s₂ m ∧
    validate_parity v₁ m doc = validate_parity v₂ m doc ∧
    (processAll s₁ fs).2 = fs.map convertFile :=
  ⟨rfl, rfl, processAll_results fs s₁⟩

end BimPipeline
